import Mathlib

/-!
# Verification of the DataHub database-resource-control layer

Shallow embedding of the identifier validator, statement builders,
execution-engine result shape, collaborator-grant transactions, query
pagination, ACL parsing, and the web/API handler layer of the DataHub
repository, together with proofs of the specified properties.

The PostgreSQL backend (`core/db/backend/pg.py`) and the manager
(`core/db/manager.py`) are not part of the provided sources; definitions
for them are modelled from the specification, with their observable
call shapes pinned by `src/core/test/test_connector_pg.py`.  The web
handlers (`src/browser/views.py`) and the API serializers
(`src/api/serializer.py`) are embedded from their sources directly.
-/

namespace DataHub

/-! ## Identifier validator (spec §4.1, `PGBackend._check_for_injections`) -/

/-- `[A-Za-z]` -/
def isLetterChar (c : Char) : Bool :=
  (('A' ≤ c) && (c ≤ 'Z')) || (('a' ≤ c) && (c ≤ 'z'))

/-- `[A-Za-z0-9_-]` -/
def isIdentChar (c : Char) : Bool :=
  isLetterChar c || (('0' ≤ c) && (c ≤ '9')) || (c == '_') || (c == '-')

/-- Modelled from the spec: `PGBackend._check_for_injections`
(`core/db/backend/pg.py`, absent from `src/`).  Spec §4.1: accepts names
that start with a letter, followed by letters/digits/underscore/hyphen,
that do not start or end with underscore or hyphen, and contain no
whitespace or `;`; rejects empty strings.  Returns `true` when the name
is accepted (in the source, rejection raises a `ValueError`). -/
def checkForInjections (s : String) : Bool :=
  match s.data with
  | [] => false
  | c :: cs =>
    let last := cs.getLastD c
    isLetterChar c && cs.all isIdentChar && !(last == '_') && !(last == '-')

/-- The claim-side input class: strings matching `^[A-Za-z][A-Za-z0-9_-]*$`. -/
def matchesIdentPattern (s : String) : Bool :=
  match s.data with
  | [] => false
  | c :: cs => isLetterChar c && cs.all isIdentChar

/-- The claim-side side condition: no leading or trailing `_` or `-`. -/
def noLeadTrailUnderscoreHyphen (s : String) : Bool :=
  match s.data with
  | [] => true
  | c :: cs =>
    let last := cs.getLastD c
    !(c == '_') && !(c == '-') && !(last == '_') && !(last == '-')

end DataHub

/-- C1: every string matching `^[A-Za-z][A-Za-z0-9_-]*$` with no leading or
trailing underscore/hyphen is accepted by the identifier validator, and each
of the eight listed injection strings as well as the empty string is
rejected. -/
theorem C1_validator_accepts_pattern_rejects_bad :
    (∀ s : String, DataHub.matchesIdentPattern s = true →
      DataHub.noLeadTrailUnderscoreHyphen s = true →
      DataHub.checkForInjections s = true) ∧
    DataHub.checkForInjections "_foo" = false ∧
    DataHub.checkForInjections "foo_" = false ∧
    DataHub.checkForInjections "-foo" = false ∧
    DataHub.checkForInjections "foo-" = false ∧
    DataHub.checkForInjections "foo bar" = false ∧
    DataHub.checkForInjections "injection;attack" = false ∧
    DataHub.checkForInjections ";injection" = false ∧
    DataHub.checkForInjections "injection;" = false ∧
    DataHub.checkForInjections "" = false := by
  refine ⟨?_, by decide, by decide, by decide, by decide, by decide,
    by decide, by decide, by decide, by decide⟩
  intro s hpat hnlt
  unfold DataHub.checkForInjections
  unfold DataHub.matchesIdentPattern at hpat
  unfold DataHub.noLeadTrailUnderscoreHyphen at hnlt
  rcases hs : s.data with _ | ⟨c, cs⟩
  · rw [hs] at hpat; exact absurd hpat (by simp)
  · rw [hs] at hpat hnlt
    simp only [Bool.and_eq_true, Bool.not_eq_true'] at hpat hnlt ⊢
    exact ⟨⟨⟨hpat.1, hpat.2⟩, hnlt.1.2⟩, hnlt.2⟩

/-- Witness for C1: the validator accepts the concrete name `good-noun`. -/
theorem C1_validator_witness :
    DataHub.matchesIdentPattern "good-noun" = true ∧
    DataHub.noLeadTrailUnderscoreHyphen "good-noun" = true ∧
    DataHub.checkForInjections "good-noun" = true :=
  ⟨by decide, by decide,
    C1_validator_accepts_pattern_rejects_bad.1 "good-noun" (by decide) (by decide)⟩

namespace DataHub

/-! ## Statement-separator truncation and `export_query` (spec §4.3, §4.8) -/

/-- Modelled from the spec: the execution engine's truncation of
caller-supplied free-form SQL at the first statement-separator `;`
(`core/db/backend/pg.py`, absent from `src/`); the concrete behaviour is
pinned by `test_export_query_only_executes_text_before_semicolon`. -/
def cleanQuery (q : String) : String :=
  ⟨q.data.takeWhile (fun c => c != ';')⟩

/-- Modelled from the spec: `PGBackend.export_query`
(`core/db/backend/pg.py`, absent from `src/`): truncates its input at the
first statement separator, then builds the copy statement
`COPY (%s) TO %s WITH %s %s DELIMITER %s;` with the parameter order pinned
by `test_export_query_with_header` / `..._with_no_header`. -/
def exportQuery (query filePath fileFormat delimiter : String) (header : Bool) :
    String × List String :=
  ("COPY (%s) TO %s WITH %s %s DELIMITER %s;",
   [cleanQuery query, filePath, fileFormat, if header then "HEADER" else "", delimiter])

end DataHub

/-- If `dropWhile p` returns a nonempty list, its head falsifies `p`. -/
theorem dropWhile_head_false {α : Type} (p : α → Bool) :
    ∀ (l : List α) (c : α) (cs : List α), l.dropWhile p = c :: cs → p c = false := by
  intro l
  induction l with
  | nil => intro c cs h; simp [List.dropWhile] at h
  | cons a as ih =>
    intro c cs h
    by_cases hp : p a
    · rw [List.dropWhile_cons_of_pos hp] at h; exact ih c cs h
    · rw [List.dropWhile_cons_of_neg hp] at h
      rw [← List.cons.injEq a as c cs |>.mp h |>.1]
      exact Bool.eq_false_iff.mpr hp

/-- C3: `export_query` places in the query slot of the COPY statement exactly
the prefix of its input before the first `;` — the slot value extends to the
full input by a remainder that is empty or starts with `;`, and itself
contains no `;`; on the input `" text before semicolon; text after; "` the
parameter list is exactly
`[" text before semicolon", "file_path", "CSV", "", ","]`. -/
theorem C3_export_query_truncates_at_semicolon :
    (∀ (q fp ff d : String) (h : Bool),
      ∃ rest : List Char,
        ((DataHub.exportQuery q fp ff d h).2.headI).data ++ rest = q.data ∧
        ';' ∉ ((DataHub.exportQuery q fp ff d h).2.headI).data ∧
        (rest = [] ∨ rest.head? = some ';')) ∧
    DataHub.exportQuery " text before semicolon; text after; "
        "file_path" "CSV" "," false =
      ("COPY (%s) TO %s WITH %s %s DELIMITER %s;",
       [" text before semicolon", "file_path", "CSV", "", ","]) := by
  constructor
  · intro q fp ff d h
    refine ⟨q.data.dropWhile (fun c => c != ';'), ?_, ?_, ?_⟩
    · show (q.data.takeWhile (fun c => c != ';')) ++ _ = q.data
      exact List.takeWhile_append_dropWhile (fun c => c != ';') q.data
    · intro hmem
      have := List.mem_takeWhile_imp hmem
      simp at this
    · rcases hd : q.data.dropWhile (fun c => c != ';') with _ | ⟨c, cs⟩
      · exact Or.inl rfl
      · refine Or.inr ?_
        have := dropWhile_head_false (fun c => c != ';') q.data c cs hd
        simp only [bne_eq_false_iff_eq] at this
        simp [this]
  · decide

namespace DataHub

/-! ## Collaborator grant/revoke statement builders (spec §4.5) -/

/-- The grant transaction template, pinned by `test_add_collaborator`. -/
def addCollabTemplate : String :=
  "BEGIN;GRANT USAGE ON SCHEMA %s TO %s;GRANT %s ON ALL TABLES IN SCHEMA %s TO %s;ALTER DEFAULT PRIVILEGES IN SCHEMA %s GRANT %s ON TABLES TO %s;COMMIT;"

/-- The revoke transaction template, pinned by `test_delete_collaborator`. -/
def deleteCollabTemplate : String :=
  "BEGIN;REVOKE ALL ON ALL TABLES IN SCHEMA %s FROM %s CASCADE;REVOKE ALL ON SCHEMA %s FROM %s CASCADE;ALTER DEFAULT PRIVILEGES IN SCHEMA %s REVOKE ALL ON TABLES FROM %s;COMMIT;"

/-- Modelled from the spec: `PGBackend.add_collaborator`
(`core/db/backend/pg.py`, absent from `src/`): validates the repo name, the
collaborator name and each privilege, joins the privileges with `", "` into
one literal, and issues the grant transaction template with the 8-parameter
tuple pinned by `test_add_collaborator`.  Returns the list of validated
identifiers, the template and the parameter tuple; a validation failure
short-circuits (in the source it raises `ValueError`). -/
def addCollaborator (repo collaborator : String) (privileges : List String) :
    Except String (List String × String × List String) :=
  let validated := repo :: collaborator :: privileges
  if validated.all checkForInjections then
    let privStr := String.intercalate ", " privileges
    .ok (validated, addCollabTemplate,
      [repo, collaborator, privStr, repo, collaborator, repo, privStr, collaborator])
  else .error "SQL injection check failed"

/-- Modelled from the spec: `PGBackend.delete_collaborator`
(`core/db/backend/pg.py`, absent from `src/`): validates the repo and the
collaborator name, and issues the revoke transaction template with the
6-parameter tuple pinned by `test_delete_collaborator`. -/
def deleteCollaborator (repo collaborator : String) :
    Except String (List String × String × List String) :=
  let validated := [repo, collaborator]
  if validated.all checkForInjections then
    .ok (validated, deleteCollabTemplate,
      [repo, collaborator, repo, collaborator, repo, collaborator])
  else .error "SQL injection check failed"

end DataHub

/-- C4: over valid identifiers, `add_collaborator` with a single privilege
issues the grant template with exactly the 8 ordered parameters
`(repo, collaborator, privilege, repo, collaborator, repo, privilege,
collaborator)` and validates exactly 3 identifiers; with privileges
`["SELECT", "USAGE"]` the parameter list carries the single joined literal
`"SELECT, USAGE"`. -/
theorem C4_add_collaborator_params :
    (∀ repo collaborator privilege : String,
      DataHub.checkForInjections repo = true →
      DataHub.checkForInjections collaborator = true →
      DataHub.checkForInjections privilege = true →
      DataHub.addCollaborator repo collaborator [privilege] =
        .ok ([repo, collaborator, privilege], DataHub.addCollabTemplate,
          [repo, collaborator, privilege, repo, collaborator,
           repo, privilege, collaborator])) ∧
    (∃ validated sql params,
      DataHub.addCollaborator "repo" "receiver" ["SELECT", "USAGE"] =
        .ok (validated, sql, params) ∧ "SELECT, USAGE" ∈ params) := by
  constructor
  · intro repo collaborator privilege hr hc hp
    simp [DataHub.addCollaborator, hr, hc, hp, String.intercalate,
      String.intercalate.go]
  · exact ⟨["repo", "receiver", "SELECT", "USAGE"],
      DataHub.addCollabTemplate,
      ["repo", "receiver", "SELECT, USAGE", "repo", "receiver",
       "repo", "SELECT, USAGE", "receiver"], rfl, by decide⟩

/-- Witness for C4: instantiation at the good nouns of the test suite. -/
theorem C4_add_collaborator_params_witness :
    DataHub.checkForInjections "good" = true ∧
    DataHub.checkForInjections "good-noun" = true ∧
    DataHub.checkForInjections "SELECT" = true ∧
    DataHub.addCollaborator "good" "good-noun" ["SELECT"] =
      .ok (["good", "good-noun", "SELECT"], DataHub.addCollabTemplate,
        ["good", "good-noun", "SELECT", "good", "good-noun",
         "good", "SELECT", "good-noun"]) :=
  ⟨by decide, by decide, by decide,
    C4_add_collaborator_params.1 "good" "good-noun" "SELECT"
      (by decide) (by decide) (by decide)⟩

namespace DataHub

/-! ## Transactional grant application (spec §3 invariant, §4.5, §7) -/

/-- The grant state visible in the catalog: schema-USAGE grants,
privileges on all current tables, and default privileges for future
tables, each keyed by `(repo, grantee[, privilege-literal])`. -/
structure GrantState where
  schemaUsage : List (String × String)
  tableGrants : List (String × String × String)
  defaultPrivs : List (String × String × String)
deriving DecidableEq, Repr

/-- `GRANT USAGE ON SCHEMA repo TO collaborator`. -/
def grantUsage (repo collaborator : String) (s : GrantState) : GrantState :=
  { s with schemaUsage := (repo, collaborator) :: s.schemaUsage }

/-- `GRANT privileges ON ALL TABLES IN SCHEMA repo TO collaborator`. -/
def grantTables (repo collaborator privStr : String) (s : GrantState) : GrantState :=
  { s with tableGrants := (repo, collaborator, privStr) :: s.tableGrants }

/-- `ALTER DEFAULT PRIVILEGES IN SCHEMA repo GRANT privileges ON TABLES TO
collaborator`. -/
def grantDefault (repo collaborator privStr : String) (s : GrantState) : GrantState :=
  { s with defaultPrivs := (repo, collaborator, privStr) :: s.defaultPrivs }

/-- `REVOKE ALL ON ALL TABLES IN SCHEMA repo FROM collaborator CASCADE`. -/
def revokeTables (repo collaborator : String) (s : GrantState) : GrantState :=
  { s with tableGrants :=
      s.tableGrants.filter (fun g => !(g.1 == repo && g.2.1 == collaborator)) }

/-- `REVOKE ALL ON SCHEMA repo FROM collaborator CASCADE`. -/
def revokeSchema (repo collaborator : String) (s : GrantState) : GrantState :=
  { s with schemaUsage :=
      s.schemaUsage.filter (fun g => !(g.1 == repo && g.2 == collaborator)) }

/-- `ALTER DEFAULT PRIVILEGES IN SCHEMA repo REVOKE ALL ON TABLES FROM
collaborator`. -/
def revokeDefault (repo collaborator : String) (s : GrantState) : GrantState :=
  { s with defaultPrivs :=
      s.defaultPrivs.filter (fun g => !(g.1 == repo && g.2.1 == collaborator)) }

/-- The three sub-statements of the `add_collaborator` transaction, in the
order of `addCollabTemplate`. -/
def addCollabActions (repo collaborator privStr : String) :
    List (GrantState → GrantState) :=
  [grantUsage repo collaborator, grantTables repo collaborator privStr,
   grantDefault repo collaborator privStr]

/-- The three sub-statements of the `delete_collaborator` transaction, in the
order of `deleteCollabTemplate`. -/
def deleteCollabActions (repo collaborator : String) :
    List (GrantState → GrantState) :=
  [revokeTables repo collaborator, revokeSchema repo collaborator,
   revokeDefault repo collaborator]

/-- Sequential execution of the sub-statements; `fails` says, per position,
whether the engine rejects that sub-statement.  A rejection aborts the
whole sequence. -/
def runTransactionAux : List (GrantState → GrantState) → List Bool →
    GrantState → Option GrantState
  | [], _, s => some s
  | a :: as, [], s => runTransactionAux as [] (a s)
  | a :: as, f :: fs, s => if f then none else runTransactionAux as fs (a s)

/-- Modelled from the spec: transactional execution of a multi-statement
grant/revoke (`BEGIN; ...; COMMIT;` issued as one `execute_sql` call in
`core/db/backend/pg.py`, absent from `src/`; spec §7 TransactionAbort).
On any sub-statement failure the transaction rolls back to the initial
grant state and the caller sees a single failure result. -/
def runTransaction (actions : List (GrantState → GrantState)) (fails : List Bool)
    (init : GrantState) : GrantState × Bool :=
  match runTransactionAux actions fails init with
  | some s => (s, true)
  | none => (init, false)

/-- Split a character list at `;`, dropping the separators. -/
def splitSemi : List Char → List (List Char)
  | [] => [[]]
  | c :: cs =>
    if c = ';' then [] :: splitSemi cs
    else
      match splitSemi cs with
      | s :: ss => (c :: s) :: ss
      | [] => [[c]]

/-- The sub-statements of a `BEGIN;...;COMMIT;` transaction template: the
`;`-separated segments other than `BEGIN`, `COMMIT` and the trailing empty
segment. -/
def transactionBody (template : String) : List String :=
  ((splitSemi template.data).map (fun l => (⟨l⟩ : String))).filter
    (fun s => (s != "BEGIN") && (s != "COMMIT") && (s != ""))

end DataHub

/-- A transaction sequence with a failing sub-statement within range
produces no final state. -/
theorem runTransactionAux_none (actions : List (DataHub.GrantState → DataHub.GrantState)) :
    ∀ (fails : List Bool) (s : DataHub.GrantState),
      true ∈ fails.take actions.length →
      DataHub.runTransactionAux actions fails s = none := by
  induction actions with
  | nil => intro fails s h; simp at h
  | cons a as ih =>
    intro fails s h
    cases fails with
    | nil => simp at h
    | cons f fs =>
      simp only [List.length_cons, List.take_succ_cons, List.mem_cons] at h
      rcases h with hf | hf
      · simp [DataHub.runTransactionAux, ← hf]
      · by_cases hfb : f
        · simp [DataHub.runTransactionAux, hfb]
        · simp only [DataHub.runTransactionAux, if_neg hfb]
          exact ih fs (a s) hf

/-- The grant transaction template contains exactly three sub-statements. -/
theorem addCollabTemplate_body_length :
    (DataHub.transactionBody DataHub.addCollabTemplate).length = 3 := by decide

/-- The revoke transaction template contains exactly three sub-statements. -/
theorem deleteCollabTemplate_body_length :
    (DataHub.transactionBody DataHub.deleteCollabTemplate).length = 3 := by decide

/-- C2 (amended): the `add_collaborator` and `delete_collaborator`
transactions each consist of three sub-statements (matching their
templates), and grant application is atomic: if the engine rejects any
sub-statement of either transaction, the resulting grant state equals the
prior state and the caller sees a single failure result, never partial
success. -/
theorem C2_grant_transactions_atomic :
    (∀ repo collaborator privStr : String,
      (DataHub.transactionBody DataHub.addCollabTemplate).length =
        (DataHub.addCollabActions repo collaborator privStr).length ∧
      (DataHub.transactionBody DataHub.deleteCollabTemplate).length =
        (DataHub.deleteCollabActions repo collaborator).length) ∧
    (∀ (repo collaborator privStr : String) (fails : List Bool)
        (init : DataHub.GrantState),
      true ∈ fails.take 3 →
      DataHub.runTransaction (DataHub.addCollabActions repo collaborator privStr)
          fails init = (init, false) ∧
      DataHub.runTransaction (DataHub.deleteCollabActions repo collaborator)
          fails init = (init, false)) := by
  constructor
  · intro repo collaborator privStr
    refine ⟨?_, ?_⟩
    · rw [addCollabTemplate_body_length]; rfl
    · rw [deleteCollabTemplate_body_length]; rfl
  · intro repo collaborator privStr fails init h
    constructor
    · have hnone := runTransactionAux_none
        (DataHub.addCollabActions repo collaborator privStr) fails init h
      simp [DataHub.runTransaction, hnone]
    · have hnone := runTransactionAux_none
        (DataHub.deleteCollabActions repo collaborator) fails init h
      simp [DataHub.runTransaction, hnone]

/-- Witness for C2: a grant whose second sub-statement fails leaves the
empty grant state unchanged and reports failure. -/
theorem C2_grant_transactions_atomic_witness :
    true ∈ ([false, true] : List Bool).take 3 ∧
    DataHub.runTransaction (DataHub.addCollabActions "repo" "bob" "SELECT")
      [false, true] ⟨[], [], []⟩ = (⟨[], [], []⟩, false) :=
  ⟨by decide,
    (C2_grant_transactions_atomic.2 "repo" "bob" "SELECT" [false, true]
      ⟨[], [], []⟩ (by decide)).1⟩

/-- C2 counterexample: the `delete_collaborator` transaction pinned by
`test_delete_collaborator` contains three revoke/alter sub-statements, not
two as the claim states. -/
theorem C2_delete_has_three_substatements :
    DataHub.transactionBody DataHub.deleteCollabTemplate =
      ["REVOKE ALL ON ALL TABLES IN SCHEMA %s FROM %s CASCADE",
       "REVOKE ALL ON SCHEMA %s FROM %s CASCADE",
       "ALTER DEFAULT PRIVILEGES IN SCHEMA %s REVOKE ALL ON TABLES FROM %s"] ∧
    (DataHub.transactionBody DataHub.deleteCollabTemplate).length ≠ 2 := by
  constructor <;> decide

namespace DataHub

/-! ## Execution-engine result record and `QuerySerializer` (spec §4.3,
`src/api/serializer.py`) -/

/-- A Python value, as far as the result records need. -/
inductive PyVal
| pyBool (b : Bool)
| pyInt (n : Int)
| pyStr (s : String)
| pyList (l : List PyVal)
| pyNone

/-- An insertion-ordered string-keyed dictionary (Python `dict`). -/
abbrev PyDict : Type := List (String × PyVal)

/-- `d.pop(key, None)`: the value stored at `key` (or `None`) together with
the dictionary with that key removed. -/
def dictPop (d : PyDict) (key : String) : PyVal × PyDict :=
  ((List.lookup key d).getD .pyNone, d.filter (fun kv => kv.1 != key))

/-- `d[key] = v`: replaces the value in place when the key exists, appends
the pair otherwise. -/
def dictSet (d : PyDict) (key : String) (v : PyVal) : PyDict :=
  if d.any (fun kv => kv.1 == key) then
    d.map (fun kv => if kv.1 == key then (key, v) else kv)
  else d ++ [(key, v)]

/-- The keys of the dictionary, in order. -/
def dictKeys (d : PyDict) : List String :=
  d.map Prod.fst

/-- Modelled from the spec: `PGBackend.execute_sql`
(`core/db/backend/pg.py`, absent from `src/`; spec §4.3).  The result
record's keys are pinned by `test_execute_sql_strips_queries`
(`res['status']`, `res['row_count']`, `res['tuples']`) and by the mocked
`execute_sql` return values used throughout `test_connector_pg.py`
(`status`, `row_count`, `tuples`, `fields`).  `fetched`, `rowcount` and
`fields` stand for the driver cursor's outputs. -/
def executeSql (_query : String) (_params : List String)
    (fetched : PyVal) (rowcount : Int) (fields : PyVal) : PyDict :=
  [("status", .pyBool true), ("row_count", .pyInt rowcount),
   ("tuples", fetched), ("fields", fields)]

/-- `QuerySerializer.execute_sql` (`src/api/serializer.py`, lines 137–147):
takes the manager's result record and renames the `tuples` key to `rows`
and the `fields` key to `columns`, via `pop` and assignment. -/
def querySerializerExecuteSql (result : PyDict) : PyDict :=
  let p1 := dictPop result "tuples"
  let d1 := dictSet p1.2 "rows" p1.1
  let p2 := dictPop d1 "fields"
  dictSet p2.2 "columns" p2.1

end DataHub

/-- C5 counterexample: the record returned by the engine's
`execute_sql` at a concrete input has keys
`status, row_count, tuples, fields` — it carries no `columns` or `rows`
key, so its keys are not exactly
`status, row_count, columns, rows` as the claim states. -/
theorem C5_engine_result_keys_counterexample :
    DataHub.dictKeys (DataHub.executeSql " This query needs stripping; "
        ["param1", "param2"] (.pyStr "sometuples") 1000 (.pyList [])) =
      ["status", "row_count", "tuples", "fields"] ∧
    "columns" ∉ DataHub.dictKeys (DataHub.executeSql " This query needs stripping; "
        ["param1", "param2"] (.pyStr "sometuples") 1000 (.pyList [])) ∧
    "rows" ∉ DataHub.dictKeys (DataHub.executeSql " This query needs stripping; "
        ["param1", "param2"] (.pyStr "sometuples") 1000 (.pyList [])) := by
  refine ⟨rfl, by decide, by decide⟩

/-- C5 (amended): the engine's `execute_sql` returns a record with keys
exactly `status, row_count, tuples, fields` for every execution; the
uniform `{status, row_count, columns, rows}` shape is produced by the API's
`QuerySerializer.execute_sql`, which renames `tuples` to `rows` and
`fields` to `columns`. -/
theorem C5_result_record_shape :
    ∀ (query : String) (params : List String) (fetched : DataHub.PyVal)
      (rowcount : Int) (fields : DataHub.PyVal),
      DataHub.dictKeys (DataHub.executeSql query params fetched rowcount fields) =
        ["status", "row_count", "tuples", "fields"] ∧
      DataHub.dictKeys (DataHub.querySerializerExecuteSql
          (DataHub.executeSql query params fetched rowcount fields)) =
        ["status", "row_count", "rows", "columns"] := by
  intro query params fetched rowcount fields
  exact ⟨rfl, rfl⟩

namespace DataHub

/-! ## Query pagination (spec §4.7, `DataHubManager.paginate_query`) -/

/-- `total_pages = ceil(num_rows / rows_per_page)` as natural-number
arithmetic. -/
def totalPagesOf (numRows rowsPerPage : Nat) : Nat :=
  (numRows + rowsPerPage - 1) / rowsPerPage

/-- The current page clamped: below 1 becomes 1, above `total_pages`
becomes `total_pages`. -/
def clampPage (currentPage tp : Nat) : Nat :=
  if currentPage < 1 then 1 else if currentPage > tp then tp else currentPage

/-- Left edge of the navigation window: five pages before the current one,
not below 1. -/
def startPageOf (cp : Nat) : Nat :=
  if 6 ≤ cp then cp - 5 else 1

/-- Right edge of the navigation window: ten pages after the left edge, not
above `total_pages`. -/
def endPageOf (sp tp : Nat) : Nat :=
  min tp (sp + 10)

/-- The pagination state computed per call (spec §3). -/
structure PaginationState where
  numRows : Nat
  totalPages : Nat
  currentPage : Nat
  startPage : Nat
  endPage : Nat
deriving DecidableEq, Repr

/-- Modelled from the spec: `DataHubManager.paginate_query`
(`core/db/manager.py`, absent from `src/`; spec §4.7): for a read query
returning `numRows` rows it computes
`total_pages = ceil(num_rows / rows_per_page)`, clamps the 1-indexed
current page into `[1, total_pages]`, and computes the bounded sliding
navigation window `[start_page, end_page]` around the current page (span
of ten pages), kept not below 1 and not above `total_pages`. -/
def paginateQuery (numRows rowsPerPage currentPage : Nat) : PaginationState :=
  let tp := totalPagesOf numRows rowsPerPage
  let cp := clampPage currentPage tp
  let sp := startPageOf cp
  ⟨numRows, tp, cp, sp, endPageOf sp tp⟩

end DataHub

/-- C7 counterexample: for a read query returning zero rows with
`rows_per_page = 50 > 0`, `total_pages = 0`, so the claimed window
invariant `1 ≤ start_page ≤ end_page ≤ total_pages` cannot hold and indeed
fails (`start_page = 1`, `end_page = 0`). -/
theorem C7_pagination_zero_rows_counterexample :
    0 < 50 ∧
    (DataHub.paginateQuery 0 50 1).startPage = 1 ∧
    (DataHub.paginateQuery 0 50 1).endPage = 0 ∧
    ¬ (1 ≤ (DataHub.paginateQuery 0 50 1).startPage ∧
        (DataHub.paginateQuery 0 50 1).startPage ≤
          (DataHub.paginateQuery 0 50 1).endPage ∧
        (DataHub.paginateQuery 0 50 1).endPage ≤
          (DataHub.paginateQuery 0 50 1).totalPages) := by
  refine ⟨by decide, rfl, rfl, by decide⟩

/-- C7 (amended): for every read query returning at least one row and
paginated with `rows_per_page > 0`, `total_pages` is the ceiling of
`num_rows / rows_per_page` (characterized by
`num_rows ≤ rows_per_page * total_pages < num_rows + rows_per_page`), the
1-indexed current page is clamped into `[1, total_pages]`, and the
navigation window satisfies
`1 ≤ start_page ≤ end_page ≤ total_pages`; in particular `num_rows = 237`
with `rows_per_page = 50` gives `total_pages = 5`. -/
theorem C7_pagination_bounds :
    (∀ numRows rowsPerPage currentPage : Nat,
      0 < rowsPerPage → 0 < numRows →
      numRows ≤ rowsPerPage * (DataHub.paginateQuery numRows rowsPerPage
        currentPage).totalPages ∧
      rowsPerPage * (DataHub.paginateQuery numRows rowsPerPage
        currentPage).totalPages < numRows + rowsPerPage ∧
      1 ≤ (DataHub.paginateQuery numRows rowsPerPage currentPage).currentPage ∧
      (DataHub.paginateQuery numRows rowsPerPage currentPage).currentPage ≤
        (DataHub.paginateQuery numRows rowsPerPage currentPage).totalPages ∧
      1 ≤ (DataHub.paginateQuery numRows rowsPerPage currentPage).startPage ∧
      (DataHub.paginateQuery numRows rowsPerPage currentPage).startPage ≤
        (DataHub.paginateQuery numRows rowsPerPage currentPage).endPage ∧
      (DataHub.paginateQuery numRows rowsPerPage currentPage).endPage ≤
        (DataHub.paginateQuery numRows rowsPerPage currentPage).totalPages) ∧
    (DataHub.paginateQuery 237 50 1).totalPages = 5 := by
  refine ⟨?_, rfl⟩
  intro numRows rowsPerPage currentPage hr hn
  simp only [DataHub.paginateQuery, DataHub.totalPagesOf, DataHub.clampPage,
    DataHub.startPageOf, DataHub.endPageOf]
  have key := Nat.div_add_mod (numRows + rowsPerPage - 1) rowsPerPage
  have hm : (numRows + rowsPerPage - 1) % rowsPerPage < rowsPerPage :=
    Nat.mod_lt _ hr
  have htp1 : 1 ≤ (numRows + rowsPerPage - 1) / rowsPerPage := by
    rw [Nat.one_le_div_iff hr]; omega
  refine ⟨by omega, by omega, ?_, ?_, ?_, ?_, ?_⟩ <;> split_ifs <;> omega

/-- Witness for C7: instantiation at `num_rows = 237`,
`rows_per_page = 50`, `current_page = 7`. -/
theorem C7_pagination_bounds_witness :
    0 < 50 ∧ 0 < 237 ∧
    (237 ≤ 50 * (DataHub.paginateQuery 237 50 7).totalPages ∧
     50 * (DataHub.paginateQuery 237 50 7).totalPages < 237 + 50 ∧
     1 ≤ (DataHub.paginateQuery 237 50 7).currentPage ∧
     (DataHub.paginateQuery 237 50 7).currentPage ≤
       (DataHub.paginateQuery 237 50 7).totalPages ∧
     1 ≤ (DataHub.paginateQuery 237 50 7).startPage ∧
     (DataHub.paginateQuery 237 50 7).startPage ≤
       (DataHub.paginateQuery 237 50 7).endPage ∧
     (DataHub.paginateQuery 237 50 7).endPage ≤
       (DataHub.paginateQuery 237 50 7).totalPages) :=
  ⟨by decide, by decide,
    C7_pagination_bounds.1 237 50 7 (by decide) (by decide)⟩

namespace DataHub

/-! ## Web handlers (`src/browser/views.py`) -/

/-- A call made to the `DataHubManager` by a web handler. -/
inductive ManagerCall
| createRepo (repo : String)
| deleteRepo (repo : String) (force : Bool)
deriving DecidableEq, Repr

/-- The request method of a web request. -/
inductive HttpMethod
| get
| post
deriving DecidableEq, Repr

/-- A web handler response. -/
inductive Response
| forbidden (message : String)
| redirect (viewName : String)
| render (template : String)
deriving DecidableEq, Repr

/-- `repo_create` (`src/browser/views.py`, lines 273–297): when the acting
user is not the repo base, returns `HttpResponseForbidden` before any
manager call; on POST calls `create_repo` and redirects; on GET renders
the creation page.  The second component collects the manager calls the
handler makes. -/
def repoCreate (username repoBase : String) (method : HttpMethod)
    (postRepo : String) : Response × List ManagerCall :=
  if username ≠ repoBase then
    (.forbidden ("Error: Permission Denied. " ++ username ++
      " cannot create new repositories in " ++ repoBase ++ "."), [])
  else
    match method with
    | .post => (.redirect "browser-user", [.createRepo postRepo])
    | .get => (.render "repo-create.html", [])

/-- `repo_delete` (`src/browser/views.py`, lines 300–309): constructs a
manager for `(username, repo_base)` and calls
`delete_repo(repo, force=True)` with no ownership check, then redirects. -/
def repoDelete (_username _repoBase repo : String) :
    Response × List ManagerCall :=
  (.redirect "browser-user-default", [.deleteRepo repo true])

/-- `repo_tables` (`src/browser/views.py`, lines 207–231): fetches the
base tables and the views of a repo; a `LookupError` raised by either
listing is caught and both lists fall back to empty.  The arguments stand
for the outcomes of the `list_tables` and `list_views` manager calls, with
`Except.error` a raised `LookupError`. -/
def repoTables (listTablesRes listViewsRes : Except Unit (List String)) :
    List String × List String :=
  match listTablesRes with
  | .error _ => ([], [])
  | .ok baseTables =>
    match listViewsRes with
    | .error _ => ([], [])
    | .ok views => (baseTables, views)

end DataHub

/-- C6 counterexample: a request by `mallory` reaching `repo_delete` for
`alice`'s repo base still issues the `delete_repo(repo, force=True)`
manager call — the destroy is not stopped for a non-owner, contradicting
the claim that the same restriction as creation applies to deletion. -/
theorem C6_repo_delete_unchecked_counterexample :
    ("mallory" : String) ≠ "alice" ∧
    DataHub.repoDelete "mallory" "alice" "repo1" =
      (.redirect "browser-user-default", [.deleteRepo "repo1" true]) :=
  ⟨by decide, rfl⟩

/-- C6 (amended): `repo_create` is owner-only — a request by a user other
than the repo base gets a permission-denied response and no manager call
is made; `repo_delete`, by contrast, performs no ownership check at the
view layer and always issues `delete_repo(repo, force=True)`. -/
theorem C6_repo_create_owner_only :
    (∀ (username repoBase postRepo : String) (method : DataHub.HttpMethod),
      username ≠ repoBase →
      (DataHub.repoCreate username repoBase method postRepo).2 = [] ∧
      (DataHub.repoCreate username repoBase method postRepo).1 =
        .forbidden ("Error: Permission Denied. " ++ username ++
          " cannot create new repositories in " ++ repoBase ++ ".")) ∧
    (∀ username repoBase repo : String,
      (DataHub.repoDelete username repoBase repo).2 =
        [.deleteRepo repo true]) := by
  constructor
  · intro username repoBase postRepo method h
    simp [DataHub.repoCreate, h]
  · intro username repoBase repo
    rfl

/-- Witness for C6: a non-owner `bob` posting to `alice`'s repo base is
denied and no manager call is made. -/
theorem C6_repo_create_owner_only_witness :
    ("bob" : String) ≠ "alice" ∧
    (DataHub.repoCreate "bob" "alice" .post "r").2 = [] ∧
    (DataHub.repoCreate "bob" "alice" .post "r").1 =
      .forbidden ("Error: Permission Denied. " ++ "bob" ++
        " cannot create new repositories in " ++ "alice" ++ ".") :=
  ⟨by decide,
    (C6_repo_create_owner_only.1 "bob" "alice" "r" .post (by decide)).1,
    (C6_repo_create_owner_only.1 "bob" "alice" "r" .post (by decide)).2⟩

/-- C9: when `list_tables` or `list_views` signals not-found by raising
`LookupError`, `repo_tables` falls back to empty table and view lists
instead of propagating the failure. -/
theorem C9_repo_tables_fallback :
    ∀ (t v : Except Unit (List String)),
      (t = .error () ∨ v = .error ()) →
      DataHub.repoTables t v = ([], []) := by
  intro t v h
  rcases h with h | h
  · rw [h]; rfl
  · cases t with
    | error e => rfl
    | ok ts => rw [h]; rfl

/-- Witness for C9: a missing repo whose `list_views` raises while
`list_tables` returned rows still yields empty lists. -/
theorem C9_repo_tables_fallback_witness :
    ((Except.ok ["t1"] : Except Unit (List String)) = .error () ∨
      (Except.error () : Except Unit (List String)) = .error ()) ∧
    DataHub.repoTables (.ok ["t1"]) (.error ()) = ([], []) :=
  ⟨Or.inr rfl,
    C9_repo_tables_fallback (.ok ["t1"]) (.error ()) (Or.inr rfl)⟩

namespace DataHub

/-! ## Collaborator listing and ACL parsing (spec §4.5) -/

/-- One collaborator entry as returned by `list_collaborators`. -/
structure Collaborator where
  username : String
  permissions : String
deriving DecidableEq, Repr

/-- Modelled from the spec: the ACL-entry parsing inside
`PGBackend.list_collaborators` (`core/db/backend/pg.py`, absent from
`src/`; spec §4.5): an entry of the form
`"<grantee>=<perm-letters>/<grantor>"` is split into the grantee (the
text before `=`) and the permission letters (the text between `=` and
`/`). -/
def parseACLEntry (entry : String) : Collaborator :=
  ⟨⟨entry.data.takeWhile (fun c => c != '=')⟩,
   ⟨((entry.data.dropWhile (fun c => c != '=')).drop 1).takeWhile
      (fun c => c != '/')⟩⟩

/-- Modelled from the spec: `PGBackend.list_collaborators`
(`core/db/backend/pg.py`, absent from `src/`): parses each unnested ACL
row, in order, into a `{username, permissions}` pair. -/
def listCollaborators (aclRows : List String) : List Collaborator :=
  aclRows.map parseACLEntry

end DataHub

/-- `takeWhile` over a list all of whose elements satisfy `p`, followed by
an element that does not, returns exactly that first part. -/
theorem takeWhile_append_stop {α : Type} (p : α → Bool) (l₁ l₂ : List α)
    (c : α) (h : ∀ x ∈ l₁, p x = true) (hc : p c = false) :
    (l₁ ++ c :: l₂).takeWhile p = l₁ := by
  induction l₁ with
  | nil => simp [List.takeWhile, hc]
  | cons a as ih =>
    have ha : p a = true := h a (List.mem_cons_self a as)
    simp only [List.cons_append, List.takeWhile_cons_of_pos ha]
    rw [ih (fun x hx => h x (List.mem_cons_of_mem a hx))]

/-- `dropWhile` under the same conditions drops exactly that first part. -/
theorem dropWhile_append_stop {α : Type} (p : α → Bool) (l₁ l₂ : List α)
    (c : α) (h : ∀ x ∈ l₁, p x = true) (hc : p c = false) :
    (l₁ ++ c :: l₂).dropWhile p = c :: l₂ := by
  induction l₁ with
  | nil => simp [List.dropWhile, hc]
  | cons a as ih =>
    have ha : p a = true := h a (List.mem_cons_self a as)
    simp only [List.cons_append, List.dropWhile_cons_of_pos ha]
    exact ih (fun x hx => h x (List.mem_cons_of_mem a hx))

/-- C8: parsing an ACL entry `"<grantee>=<perm-letters>/<grantor>"` whose
grantee contains no `=` and whose permission letters contain no `/` yields
`{username := grantee, permissions := perm-letters}`; an entry with no
grantee before `=` yields an anonymous grant (empty username); and
`list_collaborators` maps the rows of the catalog query in order, so the
two test rows produce exactly the expected pairs. -/
theorem C8_list_collaborators_parses_acl :
    (∀ grantee permLetters grantor : String,
      '=' ∉ grantee.data → '/' ∉ permLetters.data →
      DataHub.parseACLEntry (grantee ++ "=" ++ permLetters ++ "/" ++ grantor) =
        ⟨grantee, permLetters⟩) ∧
    (∀ permLetters grantor : String, '/' ∉ permLetters.data →
      (DataHub.parseACLEntry ("=" ++ permLetters ++ "/" ++ grantor)).username =
        "") ∧
    DataHub.listCollaborators ["al_carter=UC/al_carter", "foo_bar=U/al_carter"] =
      [⟨"al_carter", "UC"⟩, ⟨"foo_bar", "U"⟩] := by
  have main : ∀ grantee permLetters grantor : String,
      '=' ∉ grantee.data → '/' ∉ permLetters.data →
      DataHub.parseACLEntry (grantee ++ "=" ++ permLetters ++ "/" ++ grantor) =
        ⟨grantee, permLetters⟩ := by
    intro grantee permLetters grantor hg hp
    have hgb : ∀ x ∈ grantee.data, (x != '=') = true := by
      intro x hx
      simp only [bne_iff_ne, ne_eq]
      intro heq; exact hg (heq ▸ hx)
    have hpb : ∀ x ∈ permLetters.data, (x != '/') = true := by
      intro x hx
      simp only [bne_iff_ne, ne_eq]
      intro heq; exact hp (heq ▸ hx)
    have hdata : (grantee ++ "=" ++ permLetters ++ "/" ++ grantor).data =
        grantee.data ++ '=' :: (permLetters.data ++ '/' :: grantor.data) := by
      simp [String.data_append]
    unfold DataHub.parseACLEntry
    rw [hdata]
    rw [takeWhile_append_stop _ _ _ _ hgb (by decide)]
    rw [dropWhile_append_stop _ _ _ _ hgb (by decide)]
    simp only [List.drop_succ_cons, List.drop_zero]
    rw [takeWhile_append_stop _ _ _ _ hpb (by decide)]
  refine ⟨main, ?_, by decide⟩
  intro permLetters grantor hp
  have := main "" permLetters grantor (by simp) hp
  rw [show ("" ++ "=" ++ permLetters ++ "/" ++ grantor : String) =
    ("=" ++ permLetters ++ "/" ++ grantor : String) by simp] at this
  rw [this]

/-- Witness for C8: the parser at the concrete well-formed entry
`"foo_bar=U/al_carter"`. -/
theorem C8_list_collaborators_parses_acl_witness :
    '=' ∉ ("foo_bar" : String).data ∧ '/' ∉ ("U" : String).data ∧
    DataHub.parseACLEntry ("foo_bar" ++ "=" ++ "U" ++ "/" ++ "al_carter") =
      ⟨"foo_bar", "U"⟩ :=
  ⟨by decide, by decide,
    C8_list_collaborators_parses_acl.1 "foo_bar" "U" "al_carter"
      (by decide) (by decide)⟩

namespace DataHub

/-! ## `RepoSerializer.user_owned_repos` (`src/api/serializer.py`) -/

/-- One record of the `repos` list built by `user_owned_repos`. -/
structure RepoObj where
  repoName : String
  permissions : String
  collaborators : List Collaborator
  owner : String
deriving DecidableEq, Repr

/-- `RepoSerializer.user_owned_repos` (`src/api/serializer.py`, lines
39–54): sorts the manager's repo list ascending (`repos.sort()`) and
builds one record per repo with the literal permissions `'ALL'`, the
repo's collaborator list, and the acting username bound at serializer
construction as `owner`.  `repos` stands for the result of the manager's
`list_repos` call and `collaboratorsOf` for its `list_collaborators`. -/
def userOwnedRepos (username : String) (repos : List String)
    (collaboratorsOf : String → List Collaborator) : List RepoObj :=
  (List.insertionSort (· ≤ ·) repos).map
    (fun repo => ⟨repo, "ALL", collaboratorsOf repo, username⟩)

end DataHub

/-- C10: for every manager state, `user_owned_repos` returns the owned
repos in ascending sorted order — the entry names are a permutation of the
manager's repo list — and every entry carries the literal
`permissions = "ALL"` and `owner` equal to the acting username bound at
serializer construction. -/
theorem C10_user_owned_repos_sorted_all :
    ∀ (username : String) (repos : List String)
      (collaboratorsOf : String → List DataHub.Collaborator),
      List.Sorted (· ≤ ·)
        ((DataHub.userOwnedRepos username repos collaboratorsOf).map
          DataHub.RepoObj.repoName) ∧
      ((DataHub.userOwnedRepos username repos collaboratorsOf).map
          DataHub.RepoObj.repoName).Perm repos ∧
      ∀ entry ∈ DataHub.userOwnedRepos username repos collaboratorsOf,
        entry.permissions = "ALL" ∧ entry.owner = username := by
  intro username repos collaboratorsOf
  have hmap : (DataHub.userOwnedRepos username repos collaboratorsOf).map
      DataHub.RepoObj.repoName = List.insertionSort (· ≤ ·) repos := by
    simp [DataHub.userOwnedRepos, List.map_map, Function.comp_def]
  refine ⟨?_, ?_, ?_⟩
  · rw [hmap]; exact List.sorted_insertionSort _ _
  · rw [hmap]; exact List.perm_insertionSort _ _
  · intro entry hmem
    simp only [DataHub.userOwnedRepos, List.mem_map] at hmem
    obtain ⟨repo, _, rfl⟩ := hmem
    exact ⟨rfl, rfl⟩

/-- Witness for C10: the serializer over the repo list `["solo"]` for
acting user `al` contains the entry for `solo` with permissions `ALL` and
owner `al`. -/
theorem C10_user_owned_repos_sorted_all_witness :
    (⟨"solo", "ALL", [], "al"⟩ : DataHub.RepoObj) ∈
      DataHub.userOwnedRepos "al" ["solo"] (fun _ => []) ∧
    (⟨"solo", "ALL", [], "al"⟩ : DataHub.RepoObj).permissions = "ALL" ∧
    (⟨"solo", "ALL", [], "al"⟩ : DataHub.RepoObj).owner = "al" :=
  ⟨by decide,
    (C10_user_owned_repos_sorted_all "al" ["solo"]
        (fun _ => [])).2.2 ⟨"solo", "ALL", [], "al"⟩ (by decide)⟩
